import Mathlib

/-!
Verification of the `cck_gpx.py` route-extraction script against its
design specification.

The script scrapes a saved HTML snapshot of a delivery-route web page and
emits a GPX waypoint file.  This file gives a shallow embedding of the
script's data model and operations:

* `Node` models the parsed HTML tree (lxml element/text nodes);
* `Slot` / `match_tags` model the structural pattern matcher
  (`match_tags`, source lines 125-193);
* `firstnameish` models the display-name heuristic (lines 96-123);
* `place_id_from_google_maps_url`, `pyUrlparse`, `pyUnquote` model the
  URL handling (lines 74-94), including the fragment of
  `urllib.parse` the script relies on;
* `olcIsValid` / `olcIsShort` / `olcIsFull` model the external
  open-location-code library's validity checks, which the script calls
  as an opaque collaborator;
* `strictExtract` / `processItem` / `runExtraction` model the
  module-level extraction loop (lines 261-405);
* `routeMetadataTry` / `routeMetadata` model the best-effort route
  description extraction (lines 410-427).

Python exceptions are modelled with `Except PyErr`; the per-item
`try/except (ValueError, KeyError, TypeError)` becomes an explicit
match on the error value, and any error the handler does not name
propagates (terminating the modelled run).
-/

/-- Python exception values that can flow through the script.  Only the
`ValueError` messages are ever inspected by the script (they are printed
as diagnostics), so only `valueError` carries its exact text; for the
other exception classes the payload is the representative text that
`print(e)` would show. -/
inductive PyErr where
  | valueError (msg : String)
  | keyError (key : String)
  | typeError
  | indexError
  deriving Repr, DecidableEq

/-- HTML tree node as produced by lxml: an element with a tag name, an
attribute list and an ordered list of children, or a text node. -/
inductive Node where
  | elem (tag : String) (attrs : List (String × String)) (children : List Node)
  | text (s : String)
  deriving Repr

mutual

def Node.decEq : (a b : Node) → Decidable (a = b)
  | .text s, .text t =>
    match String.decEq s t with
    | isTrue h => isTrue (by rw [h])
    | isFalse h => isFalse (fun he => by cases he; exact h rfl)
  | .text _, .elem _ _ _ => isFalse (fun he => by cases he)
  | .elem _ _ _, .text _ => isFalse (fun he => by cases he)
  | .elem t a c, .elem t' a' c' =>
    match String.decEq t t' with
    | isFalse h => isFalse (fun he => by cases he; exact h rfl)
    | isTrue h1 =>
      match instDecidableEqList a a' with
      | isFalse h => isFalse (fun he => by cases he; exact h rfl)
      | isTrue h2 =>
        match Node.decEqList c c' with
        | isFalse h => isFalse (fun he => by cases he; exact h rfl)
        | isTrue h3 => isTrue (by rw [h1, h2, h3])

def Node.decEqList : (as bs : List Node) → Decidable (as = bs)
  | [], [] => isTrue rfl
  | [], _ :: _ => isFalse (fun he => by cases he)
  | _ :: _, [] => isFalse (fun he => by cases he)
  | a :: as, b :: bs =>
    match Node.decEq a b with
    | isFalse h => isFalse (fun he => by cases he; exact h rfl)
    | isTrue h1 =>
      match Node.decEqList as bs with
      | isFalse h => isFalse (fun he => by cases he; exact h rfl)
      | isTrue h2 => isTrue (by rw [h1, h2])

end

instance : DecidableEq Node := Node.decEq

def exceptDecEq {ε α : Type} [DecidableEq ε] [DecidableEq α] : (a b : Except ε α) → Decidable (a = b)
  | .ok a, .ok b =>
    match decEq a b with
    | isTrue h => isTrue (by rw [h])
    | isFalse h => isFalse (fun he => by cases he; exact h rfl)
  | .ok _, .error _ => isFalse (fun he => by cases he)
  | .error _, .ok _ => isFalse (fun he => by cases he)
  | .error e, .error e' =>
    match decEq e e' with
    | isTrue h => isTrue (by rw [h])
    | isFalse h => isFalse (fun he => by cases he; exact h rfl)

instance {ε α : Type} [DecidableEq ε] [DecidableEq α] : DecidableEq (Except ε α) := exceptDecEq

namespace Node

def isElem : Node → Bool
  | .elem _ _ _ => true
  | .text _ => false

def children : Node → List Node
  | .elem _ _ cs => cs
  | .text _ => []

def isElemTag (t : String) : Node → Bool
  | .elem tg _ _ => tg = t
  | .text _ => false

/-- Attribute lookup, `element.get(name)` in lxml: the attribute's value,
or `None` when absent. -/
def getAttr : Node → String → Option String
  | .elem _ attrs _, k => (attrs.find? (fun p => p.1 = k)).map (fun p => p.2)
  | .text _, _ => none

mutual

/-- The `text_content()` of a node: concatenation of all text descendants
in document order. -/
def textContent : Node → String
  | .text s => s
  | .elem _ _ cs => textContentList cs

def textContentList : List Node → String
  | [] => ""
  | c :: cs => textContent c ++ textContentList cs

end

mutual

/-- All proper descendant nodes in document order (preorder), as
traversed by an XPath `.//` step. -/
def descendants : Node → List Node
  | .text _ => []
  | .elem _ _ cs => descendantsList cs

def descendantsList : List Node → List Node
  | [] => []
  | c :: cs => c :: descendants c ++ descendantsList cs

end

end Node

/-- Whitespace for XPath `normalize-space()`: space, tab, CR, LF. -/
def isXmlWs (c : Char) : Bool :=
  c = ' ' || c = '\t' || c = '\r' || c = '\n'

/-- A string is blank when it has no non-whitespace character, i.e.
`normalize-space()` of the text node is empty. -/
def isBlankStr (s : String) : Bool :=
  s.data.all isXmlWs

/-- Whitespace for Python `str.split()` / `str.strip()` (ASCII range). -/
def isPyWs (c : Char) : Bool :=
  c = ' ' || c = '\t' || c = '\r' || c = '\n' || c = '\x0b' || c = '\x0c'

/-- Split a char list at every char satisfying `p`, keeping (possibly
empty) pieces. -/
def listSplitBy (p : Char → Bool) : List Char → List (List Char)
  | [] => [[]]
  | c :: rest =>
    let r := listSplitBy p rest
    if p c then [] :: r
    else
      match r with
      | h :: t => (c :: h) :: t
      | [] => [[c]]

/-- Python `str.split()` with no argument: split on whitespace runs,
dropping empty pieces. -/
def pySplit (s : String) : List String :=
  ((listSplitBy isPyWs s.data).map String.mk).filter (fun p => p ≠ "")

/-- Python `str.strip()` (ASCII whitespace). -/
def pyStrip (s : String) : String :=
  String.mk ((s.data.dropWhile isPyWs).reverse.dropWhile isPyWs).reverse

/-- Python `str.rstrip()` (ASCII whitespace). -/
def pyRstrip (s : String) : String :=
  String.mk (s.data.reverse.dropWhile isPyWs).reverse

/-- Substring test on char lists: does `nd` occur contiguously in `hay`? -/
def listContainsSub : List Char → List Char → Bool
  | hay, nd =>
    if nd.isPrefixOf hay then true
    else
      match hay with
      | [] => false
      | _ :: t => listContainsSub t nd

/-- Python `sub in s` / XPath `contains(s, sub)`. -/
def strContains (s sub : String) : Bool :=
  listContainsSub s.data sub.data

example : strContains "4portions" "portion" = true := by decide
example : strContains "4 servings" "portion" = false := by decide
example : strContains "abc" "" = true := by decide

/-! ## Structural pattern matcher (`match_tags`, source lines 125-193) -/

/-- The XPath child-selector expressions the script uses in patterns,
each evaluated on the `self::` axis against a single candidate node:

* `tag t` models a bare tag-name expression such as `'div'`;
* `tagContainsText t sub` models `t[contains(text(), sub)]`, where
  XPath `text()` converts to the string value of the node's first
  direct text child (empty when there is none);
* `tagNoNode t` models `t[not(node())]`, a `t` element with no child
  nodes at all. -/
inductive Sel where
  | tag (t : String)
  | tagContainsText (t sub : String)
  | tagNoNode (t : String)
  deriving Repr, DecidableEq

/-- The string value of the first direct text child, as XPath's
node-set-to-string conversion of `text()` produces. -/
def firstTextValue (n : Node) : String :=
  match n.children.find? (fun c => !c.isElem) with
  | some (.text s) => s
  | _ => ""

/-- Does the selector accept this node (on the `self::` axis)? -/
def Sel.accepts : Sel → Node → Bool
  | .tag t, n => n.isElemTag t
  | .tagContainsText t sub, n => n.isElemTag t && strContains (firstTextValue n) sub
  | .tagNoNode t, n => n.isElemTag t && n.children.isEmpty

/-- The XPath text of a selector, used in the matcher's error message. -/
def Sel.str : Sel → String
  | .tag t => t
  | .tagContainsText t sub => t ++ "[contains(text(),\x27" ++ sub ++ "\x27)]"
  | .tagNoNode t => t ++ "[not(node())]"

/-- Result of `node.xpath('self::' + e)`: on the `self::` axis this
node-set is at most the singleton of the context node itself. -/
def selMatches (e : Sel) (node : Node) : List Node :=
  if e.accepts node then [node] else []

/-- One element of a `match_tags` pattern: the dict
`{'e': ..., 'bind': ..., 'opt': ...}` of the source.  `opt` is true
exactly when the Python dict carries `'opt': True`. -/
structure Slot where
  e : Sel
  bind : Option String := none
  opt : Bool := false
  deriving Repr, DecidableEq

/-- The match result being built: the Python dict from binding names to
matched elements, with insertion order and assignment-replaces-key
semantics. -/
abbrev Bindings := List (String × Node)

def bindInsert : Bindings → String → Node → Bindings
  | [], k, v => [(k, v)]
  | (k', v') :: rest, k, v =>
    if k' = k then (k, v) :: rest else (k', v') :: bindInsert rest k v

def bindGet : Bindings → String → Option Node
  | [], _ => none
  | (k', v') :: rest, k => if k' = k then some v' else bindGet rest k

/-- The nodes considered by the matcher:
`startnode.xpath("*|text()[normalize-space()!='']")`, i.e. all element
children plus all non-blank text children, in document order. -/
def collectNodes (startnode : Node) : List Node :=
  startnode.children.filter
    (fun c =>
      match c with
      | .elem _ _ _ => true
      | .text s => !isBlankStr s)

/-- The 1:1 walk of source lines 176-193: for each pattern element pop
the next node (`IndexError` when the node list is exhausted), evaluate
the selector on the `self::` axis, raise on an ambiguous selector, fail
on zero matches, and record a binding when the slot names one. -/
def mtLoop : List Slot → List Node → Bindings → Except PyErr (Option Bindings)
  | [], _, acc => .ok (some acc)
  | _ :: _, [], _ => .error .indexError
  | sl :: pat, node :: nds, acc =>
    let ms := selMatches sl.e node
    if ms.length > 1 then
      .error (.valueError ("Pattern \x27" ++ sl.e.str ++ "\x27 returned >1 match"))
    else
      match ms with
      | [] => .ok none
      | m :: _ =>
        match sl.bind with
        | some name => mtLoop pat nds (bindInsert acc name m)
        | none => mtLoop pat nds acc

/-- The structural pattern matcher, `match_tags` (source lines 125-193).
Returns `.ok (some bindings)` on a match, `.ok none` on no match, and
`.error e` when the Python function would raise `e`. -/
def match_tags (startnode : Node) (pattern : List Slot) : Except PyErr (Option Bindings) :=
  let nodelist := collectNodes startnode
  if nodelist.any (fun n => !n.isElem) then
    .ok none
  else
    let pattern_mandatory := pattern.filter (fun tagd => !tagd.opt)
    if pattern.length - pattern_mandatory.length > 1 then
      .error (.valueError ">1 optional element in pattern")
    else if pattern.length - pattern_mandatory.length = 1 then
      if pattern.length = nodelist.length + 1 then
        mtLoop pattern_mandatory nodelist []
      else if pattern.length ≠ nodelist.length then
        .ok none
      else
        mtLoop pattern nodelist []
    else
      mtLoop pattern nodelist []

example :
    match_tags (.elem "li" [] [.elem "div" [] []]) [{ e := .tag "div", bind := some "div1" }] =
      .ok (some [("div1", .elem "div" [] [])]) := by decide

example :
    match_tags (.elem "li" [] [.text "hello"]) [{ e := .tag "div", bind := some "div1" }] =
      .ok none := by decide

example : match_tags (.elem "li" [] []) [] = .ok (some []) := by decide

/-! ## Display-name heuristic (`firstnameish`, source lines 96-123) -/

/-- The test `re.match('[A-Za-z]\.?$', tok)`: one ASCII letter optionally
followed by a period.  Because `$` in a Python regex also matches just
before a final newline, a trailing `'\n'` is tolerated; tokens produced
by `str.split()` never contain one, so that case is only reachable when
the function is called on raw strings. -/
def isInitialTok (tok : String) : Bool :=
  match tok.data with
  | [c] => c.isAlpha
  | [c, '.'] => c.isAlpha
  | [c, '\n'] => c.isAlpha
  | [c, '.', '\n'] => c.isAlpha
  | _ => false

/-- Python `tok[0] + "."`, on the nonempty tokens `str.split()` yields. -/
def firstCharDot (tok : String) : String :=
  tok.take 1 ++ "."

/-- The `for index in range(2)` loop of source lines 112-122, with its
two early exits: the last-available-token abbreviation and the stop
after a non-initial token.  `rem` is the number of loop iterations left
(`2 - index`), so the recursion is structural. -/
def fnLoop (names : List String) : Nat → Nat → List String → List String
  | 0, _, namelist => namelist
  | rem + 1, index, namelist =>
    if index = names.length - 1 then
      namelist ++ [firstCharDot (names.getD index "")]
    else
      let namelist := namelist ++ [names.getD index ""]
      if !isInitialTok (names.getD index "") then namelist
      else fnLoop names rem (index + 1) namelist

/-- The display-name heuristic `firstnameish` (source lines 96-123).
Returns `none` where the Python function returns `None` (a name with no
tokens at all). -/
def firstnameish (fullname : String) : Option String :=
  let names := pySplit fullname
  match names with
  | [] => none
  | [n] => some n
  | _ => some (String.intercalate " " (fnLoop names 2 0 []))

example : firstnameish "A B Smith" = some "A B" := by decide
example : firstnameish "Alex" = some "Alex" := by decide
example : firstnameish "F. Bloggs Smith" = some "F. Bloggs" := by decide
example : firstnameish "F Bloggs" = some "F B." := by decide
example : firstnameish "Fred Bloggs Smith" = some "Fred" := by decide
example : firstnameish "   " = none := by decide

/-! ## URL handling (source lines 74-94 and the `urllib.parse` fragment
the script relies on) -/

/-- Scheme characters accepted by `urllib.parse`: letters, digits and
`+`, `-`, `.`. -/
def isSchemeChar (c : Char) : Bool :=
  c.isAlpha || c.isDigit || c = '+' || c = '-' || c = '.'

/-- Parsed-URL fields the script reads. -/
structure PyUrl where
  scheme : String
  path : String
  deriving Repr, DecidableEq

/-- Character list split at the first occurrence of any char in `stops`,
keeping the remainder (used to cut query and fragment off a path). -/
def takeUntilAny (stops : List Char) (cs : List Char) : List Char :=
  cs.takeWhile (fun c => !stops.contains c)

/-- Model of `urllib.parse.urlparse`, restricted to the `scheme` and
`path` fields the script reads, for the URL shapes it meets: an
absolute `scheme://host/path` URL, a non-hierarchical `scheme:payload`
URI such as `tel:`, or a bare string.  It reproduces the CPython
behaviour the source's comments document (bpo-14072/27657): a candidate
scheme is only split off when the remainder is empty or not all digits,
so `tel:07123456789` parses with scheme `''` and the whole string as
path. -/
def pyUrlparse (url : String) : PyUrl :=
  let cs := url.data
  let i := cs.findIdx? (fun c => c = ':')
  match i with
  | some i =>
    let pre := cs.take i
    let rest := cs.drop (i + 1)
    if i > 0 && pre.all isSchemeChar && (pre.headD ' ').isAlpha
        && (rest.isEmpty || !rest.all Char.isDigit) then
      -- scheme recognised and split off
      let afterScheme := rest
      if afterScheme.take 2 = ['/', '/'] then
        -- netloc up to the next '/', '?' or '#'; path is the rest up to
        -- any query or fragment
        let afterNetloc := (afterScheme.drop 2).dropWhile
          (fun c => c ≠ '/' && c ≠ '?' && c ≠ '#')
        { scheme := String.mk (pre.map Char.toLower),
          path := String.mk (takeUntilAny ['?', '#'] afterNetloc) }
      else
        { scheme := String.mk (pre.map Char.toLower),
          path := String.mk (takeUntilAny ['?', '#'] afterScheme) }
    else
      { scheme := "", path := String.mk (takeUntilAny ['?', '#'] cs) }
  | none =>
    { scheme := "", path := String.mk (takeUntilAny ['?', '#'] cs) }

example : pyUrlparse "https://www.google.com/maps/place/8FVC2222%2B22?x=1" =
    { scheme := "https", path := "/maps/place/8FVC2222%2B22" } := by decide
example : pyUrlparse "tel:01234 567890" = { scheme := "tel", path := "01234 567890" } := by decide
example : pyUrlparse "tel:01234567890" = { scheme := "", path := "tel:01234567890" } := by decide

/-- Value of one percent-escape hex digit (codepoint arithmetic). -/
def pctDigitVal (c : Char) : Option Nat :=
  let n := c.toNat
  if 48 ≤ n && n ≤ 57 then some (n - 48)
  else if 97 ≤ n && n ≤ 102 then some (n - 87)
  else if 65 ≤ n && n ≤ 70 then some (n - 55)
  else none

/-- Model of `urllib.parse.unquote` on char lists: decode `%xx` escapes,
leaving malformed escapes untouched (single-byte sequences; the URLs the
script meets are ASCII). -/
def pyUnquoteList : List Char → List Char
  | '%' :: a :: b :: rest =>
    match pctDigitVal a, pctDigitVal b with
    | some ha, some hb => Char.ofNat (16 * ha + hb) :: pyUnquoteList rest
    | _, _ => '%' :: pyUnquoteList (a :: b :: rest)
  | c :: rest => c :: pyUnquoteList rest
  | [] => []

def pyUnquote (s : String) : String :=
  String.mk (pyUnquoteList s.data)

example : pyUnquote "8FVC2222%2B22" = "8FVC2222+22" := by decide

/-- The result of `re.match('/maps/place/(.*)$', path)`, returning the
captured group: the pattern must match at the start of the string, `.`
cannot cross a newline, and `$` also matches just before a final
newline. -/
def reMatchMapsPlace (path : String) : Option String :=
  if List.isPrefixOf "/maps/place/".data path.data then
    let rest := String.mk (path.data.drop 12)
    if !rest.data.contains '\n' then some rest
    else if rest.data.getLast? = some '\n' && !rest.data.dropLast.contains '\n' then
      some (String.mk rest.data.dropLast)
    else none
  else none

/-- The helper `place_id_from_google_maps_url` (source lines 74-94):
take the URL's path, percent-decode it, strip trailing whitespace, and
capture whatever follows a leading `/maps/place/`. -/
def place_id_from_google_maps_url (url : String) : Option String :=
  let path := pyUnquote (pyUrlparse url).path
  let path := pyRstrip path
  reMatchMapsPlace path

example : place_id_from_google_maps_url "https://www.google.com/maps/place/8FVC2222%2B22" =
    some "8FVC2222+22" := by decide
example : place_id_from_google_maps_url "https://example.com/other" = none := by decide

/-! ## Location-code adapter

The script calls the external `openlocationcode` library as an opaque
collaborator ("is syntactically valid", "is full-length", "decode to
latitude/longitude").  `olcIsValid` / `olcIsShort` / `olcIsFull` model
the library's published validity rules for plus codes; the decode step
is opaque to the script, so `olcDecode` represents the decoded
latitude/longitude pair symbolically by the code it decodes. -/

/-- The twenty-character plus-code digit alphabet. -/
def olcAlphabet : List Char :=
  ['2', '3', '4', '5', '6', '7', '8', '9', 'C', 'F', 'G', 'H', 'J', 'M', 'P', 'Q', 'R', 'V', 'W', 'X']

/-- Index of a char in the alphabet, `-1` when absent (Python `find`). -/
def olcFind (c : Char) : Int :=
  match olcAlphabet.findIdx? (fun d => d = c) with
  | some i => (i : Int)
  | none => -1

def lastIdxOf (cs : List Char) (c : Char) : Nat :=
  cs.length - 1 - ((cs.reverse.findIdx? (fun d => d = c)).getD 0)

/-- Padding checks of the library's `isValid`: any `'0'` padding must
sit in a full-length code, not lead, form one contiguous even-length
group, and the code must then end with the separator. -/
def olcPadOk (cs : List Char) (sep : Nat) : Bool :=
  match cs.findIdx? (fun d => d = '0') with
  | none => true
  | some pad =>
    decide (8 ≤ sep) && decide (pad ≠ 0) &&
    (let rpad := lastIdxOf cs '0'
     let pads := (cs.drop pad).take (rpad + 1 - pad)
     decide (pads.length % 2 = 0) && pads.all (fun d => d = '0')) &&
    cs.getLast? = some '+'

/-- The library's `isValid`: exactly one `'+'` separator at an even
index no later than 8, well-formed padding, not exactly one digit after
the separator, and every character a code digit, `'+'` or `'0'`
(case-insensitively). -/
def olcIsValid (code : String) : Bool :=
  let cs := code.data
  match cs.findIdx? (fun d => d = '+') with
  | none => false
  | some sep =>
    decide (cs.count '+' ≤ 1) &&
    decide (cs.length ≠ 1) &&
    decide (sep ≤ 8) && decide (sep % 2 = 0) &&
    olcPadOk cs sep &&
    decide (cs.length - sep - 1 ≠ 1) &&
    cs.all (fun c => olcAlphabet.contains c.toUpper || c = '+' || c = '0')

/-- The library's `isShort`: valid, with the separator before index 8. -/
def olcIsShort (code : String) : Bool :=
  olcIsValid code &&
  (match code.data.findIdx? (fun d => d = '+') with
   | some sep => decide (sep < 8)
   | none => false)

/-- The library's `isFull`: valid, not short, and the first two digits
within the latitude/longitude ranges. -/
def olcIsFull (code : String) : Bool :=
  olcIsValid code && !olcIsShort code &&
  (match code.data with
   | [] => false
   | c0 :: rest =>
     decide (olcFind c0.toUpper * 20 < 180) &&
     (match rest with
      | [] => true
      | c1 :: _ => decide (olcFind c1.toUpper * 20 < 360)))

example : olcIsValid "8FVC2222+22" = true := by decide
example : olcIsFull "8FVC2222+22" = true := by decide
example : olcIsValid "8FVC9999+99" = true := by decide
example : olcIsFull "8FVC9999+99" = true := by decide
example : olcIsValid "2222+22" = true := by decide
example : olcIsShort "2222+22" = true := by decide
example : olcIsFull "2222+22" = false := by decide
example : olcIsValid "NOTACODE" = false := by decide
example : olcIsValid "" = false := by decide

/-- Opaque decode: the latitude/longitude pair is represented by the
code the library would decode. -/
structure LatLng where
  ofCode : String
  deriving Repr, DecidableEq

def olcDecode (code : String) : LatLng := { ofCode := code }

/-! ## Route-point extractor (module-level loop, source lines 261-405) -/

/-- Python `str(x)` of a `None`-or-string value, as `'%s'` formatting
renders it. -/
def pyStr : Option String → String
  | none => "None"
  | some s => s

/-- Dict subscript `d[k]` where `d` may be `None` (the no-match result
of `match_tags`): `TypeError` on `None`, `KeyError` on a missing key. -/
def pySubscript (d : Option Bindings) (k : String) : Except PyErr Node :=
  match d with
  | none => .error .typeError
  | some bs =>
    match bindGet bs k with
    | some v => .ok v
    | none => .error (.keyError k)

/-- Dict subscript on a known dict. -/
def bindGetE (bs : Bindings) (k : String) : Except PyErr Node :=
  match bindGet bs k with
  | some v => .ok v
  | none => .error (.keyError k)

/-- The pattern for a list item: a single wrapper `<div>` (line 275). -/
def l1pat : List Slot := [{ e := .tag "div", bind := some "div1" }]

/-- The main per-item structure pattern (lines 283-291). -/
def l2pat : List Slot :=
  [{ e := .tag "div", bind := some "name_olc_div" },
   { e := .tag "p", bind := some "addr_p" },
   { e := .tag "div", bind := some "portions_div" },
   { e := .tag "p", bind := some "insns_p" },
   { e := .tag "p", bind := some "allergies_p" },
   { e := .tag "p", bind := some "nothome_p", opt := true },
   { e := .tag "div", bind := some "links_div" }]

/-- The name/code block pattern (lines 293-296). -/
def l3namepat : List Slot :=
  [{ e := .tag "p", bind := some "fullname_p" },
   { e := .tag "p", bind := some "olc_p" }]

/-- The links block pattern (lines 329-335). -/
def linkspat : List Slot :=
  [{ e := .tagContainsText "a" "Google Maps", bind := some "maplink_a" },
   { e := .tagContainsText "a" "Call", bind := some "tellink_a", opt := true },
   { e := .tagNoNode "div" },
   { e := .tag "button" }]

def portionsMsg (found : String) : String :=
  "Didn\x27t find \x27portion\x27 where expected (found \x27" ++ found ++ "\x27); assuming lost"

def crossMsg (pid : String) (purl : Option String) : String :=
  "Thought \x27" ++ pid ++ "\x27 was the plus code, but it doesn\x27t match the map URL (\x27"
    ++ pyStr purl ++ "\x27); assuming lost"

def invalidMsg (pid : String) : String :=
  "Thought \x27" ++ pid ++ "\x27 was the plus code, but it doesn\x27t seem valid; assuming lost"

def telMsg (link : String) : String :=
  "Expecting tel: URL, got \x27" ++ link ++ "\x27; assuming lost"

def nothomeBoilerplate : String :=
  "If no-one\x27s home and you can\x27t make contact: "

/-- Field extraction for the optional not-home paragraph (lines 323-328). -/
def nothomeValue (n : Node) : String :=
  let s0 := pyStrip n.textContent
  let s1 :=
    if List.isPrefixOf nothomeBoilerplate.data s0.data then
      String.mk (s0.data.drop nothomeBoilerplate.data.length)
    else s0
  pyStrip s1

/-- Everything the strict parse has gathered by the time it reaches the
plus-code consistency check (line 337): the context in which the final
checks run. -/
structure StrictCtx where
  fullname : String
  ptname : Option String
  placeid0 : String
  address : String
  portions : String
  instructions : String
  allergies : String
  nothome : Option String
  mapurl : String
  placeid_from_url : Option String
  linksDict : Bindings
  deriving Repr, DecidableEq

/-- The per-item Delivery Stop Record built by a fully successful strict
parse (the `fields` dict plus `ptname` and the trusted `placeid`). -/
structure StrictRecord where
  fullname : String
  ptname : Option String
  placeid : String
  address : String
  portions : String
  instructions : String
  allergies : String
  nothome : Option String
  mapurl : String
  telephone : Option String
  deriving Repr, DecidableEq

/-- The strict parse from the top of the `try` block (line 275) down to
computing `placeid_from_url` (line 338), in source order: the three
levels of `match_tags`, field extraction and normalisation, the
portions sanity check, and the map link. -/
def strictPrefix (listitem : Node) : Except PyErr StrictCtx :=
  match match_tags listitem l1pat with
  | .error e => .error e
  | .ok none => .error .typeError
  | .ok (some d1) =>
    match bindGetE d1 "div1" with
    | .error e => .error e
    | .ok div1 =>
      match match_tags div1 l2pat with
      | .error e => .error e
      | .ok none => .error .typeError
      | .ok (some d2) =>
        match bindGetE d2 "name_olc_div" with
        | .error e => .error e
        | .ok name_olc_div =>
          match match_tags name_olc_div l3namepat with
          | .error e => .error e
          | .ok none => .error .typeError
          | .ok (some d3) =>
            match bindGetE d3 "fullname_p" with
            | .error e => .error e
            | .ok fullname_p =>
              let fullname := pyStrip fullname_p.textContent
              let ptname := firstnameish fullname
              match bindGetE d3 "olc_p" with
              | .error e => .error e
              | .ok olc_p =>
                let placeid0 := pyStrip olc_p.textContent
                match bindGetE d2 "addr_p" with
                | .error e => .error e
                | .ok addr_p =>
                  let address := pyStrip addr_p.textContent
                  match bindGetE d2 "portions_div" with
                  | .error e => .error e
                  | .ok portions_div =>
                    let portionstext := portions_div.textContent
                    if !strContains portionstext "portion" then
                      .error (.valueError (portionsMsg portionstext))
                    else
                      match bindGetE d2 "insns_p" with
                      | .error e => .error e
                      | .ok insns_p =>
                        match bindGetE d2 "allergies_p" with
                        | .error e => .error e
                        | .ok allergies_p =>
                          let nothome := (bindGet d2 "nothome_p").map nothomeValue
                          match bindGetE d2 "links_div" with
                          | .error e => .error e
                          | .ok links_div =>
                            match match_tags links_div linkspat with
                            | .error e => .error e
                            | .ok none => .error .typeError
                            | .ok (some d3b) =>
                              match bindGetE d3b "maplink_a" with
                              | .error e => .error e
                              | .ok maplink_a =>
                                match maplink_a.getAttr "href" with
                                | none => .error .typeError
                                | some mapurl =>
                                  .ok { fullname := fullname,
                                        ptname := ptname,
                                        placeid0 := placeid0,
                                        address := address,
                                        portions := pyStrip portionstext,
                                        instructions := pyStrip insns_p.textContent,
                                        allergies := pyStrip allergies_p.textContent,
                                        nothome := nothome,
                                        mapurl := mapurl,
                                        placeid_from_url := place_id_from_google_maps_url mapurl,
                                        linksDict := d3b }

/-- The optional telephone field (lines 349-366), including the
double-fallback for `urllib`'s mishandling of all-digit `tel:` URIs. -/
def telField (d3b : Bindings) : Except PyErr (Option String) :=
  match bindGet d3b "tellink_a" with
  | none => .ok none
  | some a =>
    match a.getAttr "href" with
    | none => .error .typeError
    | some tellink =>
      let tp := pyUrlparse tellink
      if tp.scheme = "tel" then .ok (some (pyUnquote tp.path))
      else if tp.scheme = "" && List.isPrefixOf "tel:".data tellink.data then
        .ok (some (pyUnquote (String.mk (tellink.data.drop 4))))
      else .error (.valueError (telMsg tellink))

/-- The final checks of the strict parse (lines 337-366): plus-code
consistency check against the map URL, syntactic validity check, and
telephone extraction. -/
def strictFinish (c : StrictCtx) : Except PyErr StrictRecord :=
  if some c.placeid0 ≠ c.placeid_from_url then
    .error (.valueError (crossMsg c.placeid0 c.placeid_from_url))
  else if !olcIsValid c.placeid0 then
    .error (.valueError (invalidMsg c.placeid0))
  else
    match telField c.linksDict with
    | .error e => .error e
    | .ok tel =>
      .ok { fullname := c.fullname, ptname := c.ptname, placeid := c.placeid0,
            address := c.address, portions := c.portions,
            instructions := c.instructions, allergies := c.allergies,
            nothome := c.nothome, mapurl := c.mapurl, telephone := tel }

/-- The whole strict path of the per-item `try` block (lines 275-366). -/
def strictExtract (listitem : Node) : Except PyErr StrictRecord :=
  match strictPrefix listitem with
  | .error e => .error e
  | .ok c => strictFinish c

/-- The exception classes named by the per-item handler
`except (ValueError, KeyError, TypeError)` (line 368).  Anything else
(notably `IndexError`) propagates and terminates the run. -/
def caughtPyErr : PyErr → Bool
  | .valueError _ => true
  | .keyError _ => true
  | .typeError => true
  | .indexError => false

/-- What `print(e)` shows for a caught exception: the message itself for
`ValueError`, the quoted key for `KeyError`, and representative library
text for the other classes. -/
def errStr : PyErr → String
  | .valueError m => m
  | .keyError k => "\x27" ++ k ++ "\x27"
  | .typeError => "\x27NoneType\x27 object is not subscriptable"
  | .indexError => "pop from empty list"

def fallbackMsg (i total : Nat) : String :=
  "Failed to fully understand route point " ++ toString (i + 1) ++ " (of "
    ++ toString total ++ "), falling back to URL-only"

def fallbackFailMsg (i : Nat) : String :=
  "Fallback failed to find map URL for point " ++ toString (i + 1) ++ "!"

def deliveryName (i : Nat) : String :=
  "Delivery no " ++ toString (i + 1)

def cantParseMsg (i : Nat) (pid : Option String) : String :=
  "Couldn\x27t parse point " ++ toString (i + 1) ++ "\x27s place ID \x27" ++ pyStr pid
    ++ "\x27 as a full-length plus code"

/-- The links found by the fallback scan
`listitem.xpath(".//a[contains(@href,'google.com/maps')]")` (line 379):
all descendant `<a>` elements whose `href` attribute contains the
substring. -/
def googleLinks (listitem : Node) : List Node :=
  listitem.descendants.filter
    (fun n =>
      n.isElemTag "a" &&
      (match n.getAttr "href" with
       | some h => strContains h "google.com/maps"
       | none => false))

/-- The fallback strategy (lines 376-384): unpack exactly one Google
Maps link (the unpacking `ValueError` is caught locally, yielding no
place ID plus a diagnostic) and extract its place identifier. -/
def fallbackScan (i : Nat) (listitem : Node) : Except PyErr (Option String × List String) :=
  match googleLinks listitem with
  | [a] =>
    match a.getAttr "href" with
    | some h => .ok (place_id_from_google_maps_url h, [])
    | none => .error .typeError
  | _ => .ok (none, [fallbackFailMsg i])

/-- A GPX waypoint: the chosen name and the decoded position (lines
391-395). -/
structure Waypoint where
  name : Option String
  pos : LatLng
  deriving Repr, DecidableEq

/-- What one loop iteration contributes: the diagnostics it prints and
the waypoint it appends, if any. -/
structure ItemOutcome where
  diags : List String
  waypoint : Option Waypoint
  deriving Repr, DecidableEq

/-- The tail of each loop iteration (lines 385-398): if a place ID was
obtained (truthy) and is a valid full-length code, decode it and append
a waypoint; otherwise print a diagnostic and skip the stop. -/
def finishPoint (i : Nat) (ptname : Option String) (placeid : Option String)
    (diags : List String) : ItemOutcome :=
  match placeid with
  | some p =>
    if (p != "") && olcIsValid p && olcIsFull p then
      { diags := diags, waypoint := some { name := ptname, pos := olcDecode p } }
    else
      { diags := diags ++ [cantParseMsg i (some p)], waypoint := none }
  | none => { diags := diags ++ [cantParseMsg i none], waypoint := none }

/-- One iteration of the route-point loop (lines 268-398): try the
strict parse; on a caught exception print it, print the fallback
notice, rename the stop generically, and scan for a lone map link; an
uncaught exception propagates out of the loop. -/
def processItem (i total : Nat) (listitem : Node) : Except PyErr ItemOutcome :=
  match strictExtract listitem with
  | .ok r => .ok (finishPoint i r.ptname (some r.placeid) [])
  | .error e =>
    if caughtPyErr e then
      match fallbackScan i listitem with
      | .error e2 => .error e2
      | .ok (pid, ds2) =>
        .ok (finishPoint i (some (deliveryName i))
              pid ([errStr e, fallbackMsg i total] ++ ds2))
    else .error e

def noPointsInListMsg : String := "Found list, but no route points in it!"

def incompleteMsg (rp items : Nat) : String :=
  "Route incomplete - only understood " ++ toString rp ++ " out of "
    ++ toString items ++ " points!"

def noEmitMsg : String := "No route points to emit, giving up."

/-- The `for (index, listitem) in enumerate(ulistitems)` loop (lines
268-398), accumulating printed diagnostics and appended waypoints in
order; an uncaught exception aborts the whole run. -/
def processLoop (total : Nat) : Nat → List Node → Except PyErr (List String × List Waypoint)
  | _, [] => .ok ([], [])
  | i, it :: rest =>
    match processItem i total it with
    | .error e => .error e
    | .ok o =>
      match processLoop total (i + 1) rest with
      | .error e => .error e
      | .ok (ds, ws) => .ok (o.diags ++ ds, o.waypoint.toList ++ ws)

/-- Outcome of the route-point extraction phase.  `exitStatus = some n`
means the script called `sys.exit(n)`; `none` means control proceeds to
the metadata extraction and the GPX write. -/
structure RunResult where
  diags : List String
  routepoints : List Waypoint
  exitStatus : Option Nat
  deriving Repr, DecidableEq

/-- Lines 265-268 and 400-405: the empty-list notice before the loop,
the loop itself, the route-incomplete accounting, and the
zero-points abort with exit status 1. -/
def runExtraction (ulistitems : List Node) : Except PyErr RunResult :=
  let preDiags := if ulistitems.length = 0 then [noPointsInListMsg] else []
  match processLoop ulistitems.length 0 ulistitems with
  | .error e => .error e
  | .ok (ds, rps) =>
    let d2 := if rps.length ≠ ulistitems.length then
        [incompleteMsg rps.length ulistitems.length]
      else []
    if rps.length = 0 then
      .ok { diags := preDiags ++ ds ++ d2 ++ [noEmitMsg], routepoints := rps,
            exitStatus := some 1 }
    else
      .ok { diags := preDiags ++ ds ++ d2, routepoints := rps, exitStatus := none }

/-! ## Route metadata extractor (source lines 410-427) -/

/-- Child elements with a given tag, `node.xpath(t)` for a bare tag. -/
def childElems (n : Node) (t : String) : List Node :=
  n.children.filter (fun c => c.isElemTag t)

/-- Python tuple unpacking `(a, b) = xs` of an expected pair. -/
def pyUnpack2 (xs : List Node) : Except PyErr (Node × Node) :=
  match xs with
  | [a, b] => .ok (a, b)
  | [] => .error (.valueError "not enough values to unpack (expected 2, got 0)")
  | [_] => .error (.valueError "not enough values to unpack (expected 2, got 1)")
  | _ => .error (.valueError "too many values to unpack (expected 2)")

/-- Python tuple unpacking `(a,) = xs` of an expected singleton. -/
def pyUnpack1 (xs : List Node) : Except PyErr Node :=
  match xs with
  | [a] => .ok a
  | [] => .error (.valueError "not enough values to unpack (expected 1, got 0)")
  | _ => .error (.valueError "too many values to unpack (expected 1)")

/-- The metadata shape pattern (lines 414-419). -/
def metapat : List Slot :=
  [{ e := .tag "div", bind := some "route_reset_div" },
   { e := .tag "div", bind := some "dish_div", opt := true },
   { e := .tag "ul" },
   { e := .tag "div" }]

def metaFailMsg : String := "Couldn\x27t find route description, continuing anyway"

/-- The body of the metadata `try` block (lines 413-423): take the
second of exactly two `<div>` children of `<main>`, shape-match it,
descend into the description block's sole `<div>`, and normalise its
text content's whitespace. -/
def routeMetadataTry (mainEl : Node) : Except PyErr String :=
  match pyUnpack2 (childElems mainEl "div") with
  | .error e => .error e
  | .ok (_, l1div2) =>
    match match_tags l1div2 metapat with
    | .error e => .error e
    | .ok l2 =>
      match pySubscript l2 "route_reset_div" with
      | .error e => .error e
      | .ok route_reset_div =>
        match pyUnpack1 (childElems route_reset_div "div") with
        | .error e => .error e
        | .ok l3div1 =>
          .ok (String.intercalate " " (pySplit l3div1.textContent))

/-- The metadata extraction with its handler (lines 410-427): only
`ValueError` and `KeyError` are caught and downgraded to "no
description" with a diagnostic; any other exception propagates and
terminates the run. -/
def routeMetadata (mainEl : Node) : Except PyErr (Option String × List String) :=
  match routeMetadataTry mainEl with
  | .ok d => .ok (some d, [])
  | .error (.valueError _) => .ok (none, [metaFailMsg])
  | .error (.keyError _) => .ok (none, [metaFailMsg])
  | .error e => .error e

/-! ## Command-line handling (source lines 197-199 and 457-459) -/

def usageMsg : String := "usage: cck_gpx.py in.html out.gpx"

/-- The argument check at lines 197-199: with `len(sys.argv) < 2` the
usage message is printed to stderr and the script exits with status 2;
otherwise execution continues. -/
def usageExit (argv : List String) : Option (String × Nat) :=
  if argv.length < 2 then some (usageMsg, 2) else none

/-- Python list subscript `argv[i]`, raising `IndexError` out of range. -/
def pyArgvGet (argv : List String) (i : Nat) : Except PyErr String :=
  match argv.get? i with
  | some v => .ok v
  | none => .error .indexError

/-- The input path read at line 204 (`sys.argv[1]`). -/
def inputPathArg (argv : List String) : Except PyErr String := pyArgvGet argv 1

/-- The output path read at line 457 (`sys.argv[2]`). -/
def outputPathArg (argv : List String) : Except PyErr String := pyArgvGet argv 2

/-! ## Concrete fixtures used by the evaluation theorems -/

/-- Name/code block: two `<p>`s with the client name and textual code. -/
def mkNameOlc (code : String) : Node :=
  .elem "div" [] [.elem "p" [] [.text "Fred Bloggs"], .elem "p" [] [.text code]]

def addrP : Node := .elem "p" [] [.text "1 Test Street"]

def insnsP : Node := .elem "p" [] [.text "Ring bell"]

def allergP : Node := .elem "p" [] [.text "None"]

/-- Portions block: a `<span>` count and a `<p>` label. -/
def mkPortions (label : String) : Node :=
  .elem "div" [] [.elem "span" [] [.text "4"], .elem "p" [] [.text label]]

/-- Links block: Google Maps link, empty spacer, done button (no
optional Call link). -/
def mkLinks (code : String) : Node :=
  .elem "div" []
    [.elem "a" [("href", "https://www.google.com/maps/place/" ++ code)]
      [.text "Google Maps"],
     .elem "div" [] [],
     .elem "button" [] [.text "Done"]]

/-- The single wrapper `<div>` of a list item. -/
def mkWrapper (code : String) (portionsText : String) : Node :=
  .elem "div" []
    [mkNameOlc code, addrP, mkPortions portionsText, insnsP, allergP, mkLinks code]

/-- A list item with the full expected shape: wrapper div; name/code
block; address; portions block; instructions; allergies; links block
with a Google Maps link, spacer and button (no optional not-home
paragraph and no Call link). -/
def mkItem (code : String) (portionsText : String) : Node :=
  .elem "li" [] [mkWrapper code portionsText]

/-- Item whose textual code is a valid but short (non-full) plus code,
consistent with its map URL. -/
def cItemShort : Node := mkItem "2222+22" "portions"

/-- Item whose textual code is not a syntactically valid plus code,
consistent with its map URL. -/
def cItemInvalid : Node := mkItem "NOTACODE" "portions"

/-- Item with a fully matching shape whose portions block does not
contain the substring `portion`. -/
def cItemNoPortion : Node := mkItem "8FVC2222+22" "servings"

/-- Item with a fully matching shape and a valid full code. -/
def cItemGood : Node := mkItem "8FVC2222+22" "portions"

/-- A list item with no children at all. -/
def cItemEmpty : Node := .elem "li" [] []

example :
    strictExtract cItemGood =
      .ok { fullname := "Fred Bloggs", ptname := some "Fred", placeid := "8FVC2222+22",
            address := "1 Test Street", portions := "4portions",
            instructions := "Ring bell", allergies := "None", nothome := none,
            mapurl := "https://www.google.com/maps/place/8FVC2222+22",
            telephone := none } := by decide

example :
    processItem 0 1 cItemGood =
      .ok { diags := [],
            waypoint := some { name := some "Fred", pos := olcDecode "8FVC2222+22" } } := by
  decide

example :
    processItem 0 1 cItemShort =
      .ok { diags := [cantParseMsg 0 (some "2222+22")], waypoint := none } := by decide

example : processItem 0 1 cItemEmpty = .error .indexError := by decide

example :
    strictExtract cItemInvalid = .error (.valueError (invalidMsg "NOTACODE")) := by decide

example :
    strictExtract cItemNoPortion = .error (.valueError (portionsMsg "4servings")) := by decide

example :
    processItem 0 1 cItemNoPortion =
      .ok { diags := [portionsMsg "4servings", fallbackMsg 0 1],
            waypoint := some { name := some (deliveryName 0), pos := olcDecode "8FVC2222+22" } } := by
  decide

/-- The second `<main>` fixture: two top-level `<div>`s, but the second
one's children (`[<p>]`) do not fit the metadata shape pattern, so
`match_tags` reports no match. -/
def cMetaBadShape : Node :=
  .elem "main" [] [.elem "div" [] [], .elem "div" [] [.elem "p" [] []]]

/-- A `<main>` with only one top-level `<div>`: the pair unpacking
raises `ValueError`, which the metadata handler catches. -/
def cMetaWrongCount : Node := .elem "main" [] [.elem "div" [] []]

/-! ## Helper lemmas -/

/-- Every link returned by the fallback scan carries an `href`
attribute (the XPath predicate requires one), so the scan itself never
raises. -/
theorem fallbackScan_never_errors (i : Nat) (item : Node) :
    ∃ r, fallbackScan i item = .ok r := by
  cases hg : googleLinks item with
  | nil =>
    refine ⟨(none, [fallbackFailMsg i]), ?_⟩
    simp only [fallbackScan, hg]
  | cons a rest =>
    cases rest with
    | cons b rest2 =>
      refine ⟨(none, [fallbackFailMsg i]), ?_⟩
      simp only [fallbackScan, hg]
    | nil =>
      have ha : a ∈ googleLinks item := by rw [hg]; exact List.mem_singleton.mpr rfl
      have hp := (List.mem_filter.mp ha).2
      cases hh : a.getAttr "href" with
      | none => rw [hh] at hp; simp at hp
      | some h =>
        refine ⟨(place_id_from_google_maps_url h, []), ?_⟩
        simp only [fallbackScan, hg, hh]

/-- `finishPoint` only ever appends to the diagnostics it is given. -/
theorem mem_finishPoint_diags (i : Nat) (pt pid : Option String) (diags : List String)
    (x : String) (hx : x ∈ diags) : x ∈ (finishPoint i pt pid diags).diags := by
  unfold finishPoint
  cases pid with
  | none => simp [hx]
  | some p =>
    by_cases hc : ((p != "") && olcIsValid p && olcIsFull p) = true
    · simp [hc, hx]
    · simp only [Bool.not_eq_true] at hc
      simp [hc, hx]

/-- When the strict parse fails with one of the caught exception
classes, the loop iteration prints the exception and the fallback
notice and still completes normally. -/
theorem processItem_fallback_of_caught (i total : Nat) (item : Node) (e : PyErr)
    (hs : strictExtract item = .error e) (hc : caughtPyErr e = true) :
    ∃ o, processItem i total item = .ok o
      ∧ errStr e ∈ o.diags ∧ fallbackMsg i total ∈ o.diags := by
  obtain ⟨⟨pid, ds2⟩, hf⟩ := fallbackScan_never_errors i item
  refine ⟨finishPoint i (some (deliveryName i)) pid ([errStr e, fallbackMsg i total] ++ ds2),
    ?_, ?_, ?_⟩
  · simp only [processItem, hs, hc, if_true, hf]
  · exact mem_finishPoint_diags _ _ _ _ _ (by simp)
  · exact mem_finishPoint_diags _ _ _ _ _ (by simp)

/-- A successful `strictFinish` has passed the syntactic-validity
check, so the record's place ID is a valid code. -/
theorem strictFinish_ok_valid (c : StrictCtx) (r : StrictRecord)
    (h : strictFinish c = .ok r) : olcIsValid r.placeid = true := by
  unfold strictFinish at h
  by_cases h1 : some c.placeid0 ≠ c.placeid_from_url
  · rw [if_pos h1] at h; simp at h
  · rw [if_neg h1] at h
    by_cases h2 : (!olcIsValid c.placeid0) = true
    · rw [if_pos h2] at h; simp at h
    · rw [if_neg h2] at h
      cases ht : telField c.linksDict with
      | error e2 => rw [ht] at h; simp at h
      | ok tel =>
        rw [ht] at h
        injection h with h
        subst h
        simpa using h2

/-- Each loop iteration appends at most one waypoint, so a completed
loop yields at most one waypoint per list item. -/
theorem processLoop_length_le (total : Nat) :
    ∀ (i : Nat) (items : List Node) (ds : List String) (ws : List Waypoint),
      processLoop total i items = .ok (ds, ws) → ws.length ≤ items.length := by
  intro i items
  induction items generalizing i with
  | nil =>
    intro ds ws h
    simp only [processLoop, Except.ok.injEq, Prod.mk.injEq] at h
    rw [← h.2]
    simp
  | cons it rest ih =>
    intro ds ws h
    simp only [processLoop] at h
    cases hp : processItem i total it with
    | error e => rw [hp] at h; simp at h
    | ok o =>
      rw [hp] at h
      cases hl : processLoop total (i + 1) rest with
      | error e => rw [hl] at h; simp at h
      | ok p =>
        obtain ⟨ds', ws'⟩ := p
        rw [hl] at h
        simp only [Except.ok.injEq, Prod.mk.injEq] at h
        rw [← h.2]
        have h1 : o.waypoint.toList.length ≤ 1 := by
          cases o.waypoint <;> simp
        have h2 := ih (i + 1) ds' ws' hl
        simp only [List.length_append, List.length_cons]
        omega

/-- The abbreviation loop adds at most one token per remaining
iteration. -/
theorem fnLoop_length (names : List String) :
    ∀ (rem index : Nat) (acc : List String),
      (fnLoop names rem index acc).length ≤ acc.length + rem := by
  intro rem
  induction rem with
  | zero => intro index acc; simp [fnLoop]
  | succ r ih =>
    intro index acc
    unfold fnLoop
    by_cases h1 : index = names.length - 1
    · rw [if_pos h1]; simp
    · rw [if_neg h1]
      by_cases h2 : (!isInitialTok (names.getD index "")) = true
      · simp only [h2, if_true]; simp
      · simp only [h2, if_false]
        calc (fnLoop names r (index + 1) (acc ++ [names.getD index ""])).length
            ≤ (acc ++ [names.getD index ""]).length + r := ih (index + 1) _
          _ = acc.length + (r + 1) := by simp; omega

/-! ## Claim theorems -/

/-- A parent with two `<div>` element children and no text children. -/
def c1Parent : Node := .elem "li" [] [.elem "div" [] [], .elem "div" [] []]

/-- C1: the claim states that `match_tags` succeeds only when the child
count equals the slot count.  Evaluating the code at a failing input
refutes this: a pattern of one mandatory slot (no optional slot, so the
claim's counting rule requires equal lengths) applied to a parent with
two element children and no text children succeeds anyway — the matcher
walks only the pattern, binds the first child, and never examines the
surplus second child. -/
theorem c1_match_tags_accepts_surplus_children :
    match_tags c1Parent l1pat = .ok (some [("div1", .elem "div" [] [])])
    ∧ (collectNodes c1Parent).length = 2
    ∧ l1pat.length = 1
    ∧ l1pat.all (fun sl => !sl.opt) = true := by decide

/-- A two-mandatory-slot pattern (`<div>` twice, no optional slot). -/
def c2pat : List Slot := [{ e := .tag "div" }, { e := .tag "div" }]

/-- A parent with a single `<div>` element child. -/
def c2Parent : Node := .elem "x" [] [.elem "div" [] []]

/-- C2: the claim states `match_tags` never throws for an ordinary
mismatch.  Evaluating the code at a failing input refutes this: a
pattern of two mandatory slots (no optional slot, no ambiguous
selector) against a parent with one matching child raises `IndexError`
from `nodelist.pop(0)` instead of returning the no-match result. -/
theorem c2_match_tags_raises_on_too_few_children :
    match_tags c2Parent c2pat = .error .indexError
    ∧ c2pat.all (fun sl => !sl.opt) = true
    ∧ (collectNodes c2Parent).all (fun n => n.isElem) = true := by decide

/-- C4: the claim states every metadata mismatch is caught and
downgraded to "no metadata".  Evaluating the code refutes this: when
the second top-level container's shape does not match, `match_tags`
returns the no-match value and the following subscript raises
`TypeError`, which the handler (`except (ValueError, KeyError)`) does
not catch — the run terminates.  A wrong top-level container count, by
contrast, raises `ValueError` and is caught as the claim describes. -/
theorem c4_metadata_shape_mismatch_is_fatal :
    routeMetadata cMetaBadShape = .error .typeError
    ∧ routeMetadata cMetaWrongCount = .ok (none, [metaFailMsg]) := by decide

/-- C5: the claim states that any invocation with fewer than the two
required paths prints usage and exits with status 2.  Evaluating the
code refutes this: the check `len(sys.argv) < 2` lets an invocation
with exactly one argument through (no usage, no exit 2), and the run
later hits `sys.argv[2]` when opening the output file, raising an
uncaught `IndexError`.  Only the zero-argument invocation gets the
usage/exit-2 treatment. -/
theorem c5_single_argument_slips_past_usage_check :
    usageExit ["cck_gpx.py", "in.html"] = none
    ∧ outputPathArg ["cck_gpx.py", "in.html"] = .error .indexError
    ∧ inputPathArg ["cck_gpx.py", "in.html"] = .ok "in.html"
    ∧ usageExit ["cck_gpx.py"] = some (usageMsg, 2) := by decide

/-- C6: for every parent with at least one non-blank text child among
its collected children, `match_tags` returns the no-match result,
whatever the element shape and whatever the pattern. -/
theorem c6_nonblank_text_child_never_matches (n : Node) (pattern : List Slot) (s : String)
    (hmem : Node.text s ∈ n.children) (hnb : isBlankStr s = false) :
    match_tags n pattern = .ok none := by
  have hcol : (collectNodes n).any (fun x => !x.isElem) = true := by
    apply List.any_eq_true.mpr
    refine ⟨Node.text s, ?_, rfl⟩
    unfold collectNodes
    apply List.mem_filter.mpr
    exact ⟨hmem, by simp [hnb]⟩
  simp only [match_tags, hcol, if_true]

/-- Witness for C6 at a concrete parent and the script's own main
pattern. -/
theorem c6_witness :
    match_tags (.elem "div" [] [.elem "p" [] [], .text "stray prose"]) l2pat = .ok none :=
  c6_nonblank_text_child_never_matches _ l2pat "stray prose" (by decide) (by decide)

/-- C7: the claim states every list item whose strict extraction fails
gets a diagnostic and the fallback scan.  Evaluating the code at a
failing input refutes this: an empty `<li>` makes the strict parse fail
with `IndexError` (children exhausted mid-pattern), which the per-item
handler `except (ValueError, KeyError, TypeError)` does not catch, so
no fallback runs and the exception terminates the run. -/
theorem c7_empty_item_escapes_fallback :
    strictExtract cItemEmpty = .error .indexError
    ∧ caughtPyErr .indexError = false
    ∧ processItem 0 1 cItemEmpty = .error .indexError := by decide

/-- The strict record produced for `cItemShort`. -/
def cRecShort : StrictRecord :=
  { fullname := "Fred Bloggs", ptname := some "Fred", placeid := "2222+22",
    address := "1 Test Street", portions := "4portions",
    instructions := "Ring bell", allergies := "None", nothome := none,
    mapurl := "https://www.google.com/maps/place/2222+22", telephone := none }

/-- C3 counterexample: the claim states that a valid but short
(not fully-specified) code triggers the per-item fallback.  Evaluating
the code refutes this: an item whose textual code `2222+22` is valid
and short passes the strict path untouched (only `isValid` is checked
there), and the item is then skipped at waypoint conversion with a
diagnostic — the fallback notice is never printed and the stop is not
renamed. -/
theorem c3_counterexample_short_code_skips_not_falls_back :
    strictExtract cItemShort = .ok cRecShort
    ∧ olcIsValid "2222+22" = true
    ∧ olcIsShort "2222+22" = true
    ∧ olcIsFull "2222+22" = false
    ∧ processItem 0 1 cItemShort =
        .ok { diags := [cantParseMsg 0 (some "2222+22")], waypoint := none }
    ∧ fallbackMsg 0 1 ∉ [cantParseMsg 0 (some "2222+22")] := by decide

/-- C3 (amended): in the strict path only syntactic validity is
checked, so (i) a record surviving strict extraction always carries a
syntactically valid code — an invalid code aborts the strict path with
a caught `ValueError`, and (ii) any caught strict failure runs the
fallback; whereas (iii) a strict success whose code is not full-length
is not sent to the fallback at all: its waypoint is dropped at
conversion time with the can't-parse diagnostic only. -/
theorem c3_invalid_code_falls_back_short_code_skips (item : Node) (i total : Nat) :
    (∀ r, strictExtract item = .ok r → olcIsValid r.placeid = true)
    ∧ (∀ e, strictExtract item = .error e → caughtPyErr e = true →
        ∃ o, processItem i total item = .ok o ∧ fallbackMsg i total ∈ o.diags)
    ∧ (∀ r, strictExtract item = .ok r → olcIsFull r.placeid = false →
        processItem i total item =
          .ok { diags := [cantParseMsg i (some r.placeid)], waypoint := none }) := by
  refine ⟨?_, ?_, ?_⟩
  · intro r h
    unfold strictExtract at h
    cases hp : strictPrefix item with
    | error e => rw [hp] at h; simp at h
    | ok c => rw [hp] at h; exact strictFinish_ok_valid c r h
  · intro e h hc
    obtain ⟨o, ho, _, hm⟩ := processItem_fallback_of_caught i total item e h hc
    exact ⟨o, ho, hm⟩
  · intro r h hf
    simp only [processItem, h, finishPoint, hf, Bool.and_false, if_false]
    simp

/-- Witness for C3: the invalid-code item is diverted to the fallback
(with the fallback notice printed), and the valid-but-short item is
skipped at conversion without it. -/
theorem c3_witness :
    (∃ o, processItem 0 1 cItemInvalid = .ok o ∧ fallbackMsg 0 1 ∈ o.diags)
    ∧ processItem 0 1 cItemShort =
        .ok { diags := [cantParseMsg 0 (some "2222+22")], waypoint := none } :=
  ⟨(c3_invalid_code_falls_back_short_code_skips cItemInvalid 0 1).2.1
      (.valueError (invalidMsg "NOTACODE")) (by decide) (by decide),
   (c3_invalid_code_falls_back_short_code_skips cItemShort 0 1).2.2
      cRecShort (by decide) (by decide)⟩

/-- C8 counterexample: the claim's example says `'F. Bloggs Smith'`
produces `'F Bloggs'`.  Evaluating the code refutes this: gathered
tokens are appended verbatim, so the initial keeps its period and the
result is `'F. Bloggs'`. -/
theorem c8_counterexample_period_kept :
    firstnameish "F. Bloggs Smith" = some "F. Bloggs"
    ∧ "F. Bloggs" ≠ "F Bloggs" := by decide

/-- C8 (amended): display-name derivation returns a one-word name
verbatim (so it is idempotent there); otherwise it takes up to the
first two space-separated tokens, stopping after the first token not
shaped like an initial and abbreviating the last available token to its
first letter plus period when tokens run out; tokens are kept verbatim,
so `'F. Bloggs Smith'` gives `'F. Bloggs'` (period kept); and every
result is the join of at most two gathered words. -/
theorem c8_abbreviation_rules :
    (∀ s w, pySplit s = [w] → firstnameish s = some w)
    ∧ firstnameish "A B Smith" = some "A B"
    ∧ firstnameish "Alex" = some "Alex"
    ∧ firstnameish "F. Bloggs Smith" = some "F. Bloggs"
    ∧ firstnameish "F Bloggs" = some "F B."
    ∧ (∀ s out, firstnameish s = some out →
        ∃ l, l.length ≤ 2 ∧ out = String.intercalate " " l) := by
  refine ⟨?_, by decide, by decide, by decide, by decide, ?_⟩
  · intro s w h
    simp [firstnameish, h]
  · intro s out h
    unfold firstnameish at h
    cases hs : pySplit s with
    | nil => rw [hs] at h; simp at h
    | cons n rest =>
      cases rest with
      | nil =>
        rw [hs] at h
        simp only [Option.some.injEq] at h
        exact ⟨[n], by simp, by rw [← h]; exact rfl⟩
      | cons n2 rest2 =>
        rw [hs] at h
        simp only [Option.some.injEq] at h
        refine ⟨fnLoop (n :: n2 :: rest2) 2 0 [], ?_, h.symm⟩
        simpa using fnLoop_length (n :: n2 :: rest2) 2 0 []

/-- Witness for C8: the one-word rule applied at `'Bob'`, and the
two-word bound applied at `'A B Smith'`. -/
theorem c8_witness :
    firstnameish "Bob" = some "Bob"
    ∧ (∃ l, l.length ≤ 2 ∧ "A B" = String.intercalate " " l) :=
  ⟨c8_abbreviation_rules.1 "Bob" "Bob" (by decide),
   c8_abbreviation_rules.2.2.2.2.2 "A B Smith" "A B" (by decide)⟩

/-- C9: after a completed loop, at most one waypoint exists per item;
fewer waypoints than items puts the route-incomplete diagnostic on the
error stream; zero waypoints prints the giving-up notice and exits with
status 1 (and an empty item list additionally prints the
no-route-points notice beforehand); at least one waypoint lets the run
proceed to the output-writing phase. -/
theorem c9_post_loop_accounting (items : List Node) (res : RunResult)
    (h : runExtraction items = .ok res) :
    res.routepoints.length ≤ items.length
    ∧ (res.routepoints.length < items.length →
        incompleteMsg res.routepoints.length items.length ∈ res.diags)
    ∧ (res.routepoints.length = 0 → res.exitStatus = some 1 ∧ noEmitMsg ∈ res.diags)
    ∧ (items = [] → noPointsInListMsg ∈ res.diags)
    ∧ (0 < res.routepoints.length → res.exitStatus = none) := by
  simp only [runExtraction] at h
  cases hl : processLoop items.length 0 items with
  | error e => rw [hl] at h; simp at h
  | ok p =>
    obtain ⟨ds, rps⟩ := p
    rw [hl] at h
    simp only [] at h
    have hle := processLoop_length_le items.length 0 items ds rps hl
    by_cases hz : rps.length = 0
    · rw [if_pos hz] at h
      injection h with h
      subst h
      simp only []
      refine ⟨hle, ?_, fun _ => ⟨trivial, ?_⟩, fun hnil => ?_, fun hpos => ?_⟩
      · intro hlt
        have hne : rps.length ≠ items.length := Nat.ne_of_lt hlt
        rw [if_pos hne]
        simp [List.mem_append]
      · simp [List.mem_append]
      · subst hnil
        simp only [List.length_nil, if_pos rfl]
        simp [List.mem_append]
      · rw [hz] at hpos; exact absurd hpos (by simp)
    · rw [if_neg hz] at h
      injection h with h
      subst h
      simp only []
      refine ⟨hle, ?_, fun hzz => absurd hzz hz, fun hnil => ?_, fun _ => trivial⟩
      · intro hlt
        have hne : rps.length ≠ items.length := Nat.ne_of_lt hlt
        rw [if_pos hne]
        simp [List.mem_append]
      · subst hnil
        simp only [List.length_nil] at hle
        exact absurd (Nat.le_zero.mp hle) hz

/-- The run result for an empty route list. -/
def c9res : RunResult :=
  { diags := [noPointsInListMsg, noEmitMsg], routepoints := [], exitStatus := some 1 }

/-- Witness for C9 at the empty item list (Scenario D): zero points,
both no-route-points diagnostics, exit status 1. -/
theorem c9_witness :
    c9res.routepoints.length ≤ ([] : List Node).length
    ∧ (c9res.routepoints.length < ([] : List Node).length →
        incompleteMsg c9res.routepoints.length ([] : List Node).length ∈ c9res.diags)
    ∧ (c9res.routepoints.length = 0 → c9res.exitStatus = some 1 ∧ noEmitMsg ∈ c9res.diags)
    ∧ (([] : List Node) = [] → noPointsInListMsg ∈ c9res.diags)
    ∧ (0 < c9res.routepoints.length → c9res.exitStatus = none) :=
  c9_post_loop_accounting [] c9res (by decide)

/-- C10: when an item's structure matches all the way down to the
portions block but the block's text content lacks the substring
`portion`, the strict parse aborts with the caught `ValueError` and the
item goes through the fallback path, its diagnostics carrying both the
sanity-check message and the fallback notice. -/
theorem c10_missing_portion_falls_back
    (item div1 name_olc_div fullname_p olc_p addr_p portions_div : Node)
    (d1 d2 d3 : Bindings) (i total : Nat)
    (h1 : match_tags item l1pat = .ok (some d1))
    (h2 : bindGet d1 "div1" = some div1)
    (h3 : match_tags div1 l2pat = .ok (some d2))
    (h4 : bindGet d2 "name_olc_div" = some name_olc_div)
    (h5 : match_tags name_olc_div l3namepat = .ok (some d3))
    (h6 : bindGet d3 "fullname_p" = some fullname_p)
    (h7 : bindGet d3 "olc_p" = some olc_p)
    (h8 : bindGet d2 "addr_p" = some addr_p)
    (h9 : bindGet d2 "portions_div" = some portions_div)
    (hp : strContains portions_div.textContent "portion" = false) :
    strictExtract item = .error (.valueError (portionsMsg portions_div.textContent))
    ∧ ∃ o, processItem i total item = .ok o
        ∧ portionsMsg portions_div.textContent ∈ o.diags
        ∧ fallbackMsg i total ∈ o.diags := by
  have hpre : strictPrefix item =
      .error (.valueError (portionsMsg portions_div.textContent)) := by
    simp only [strictPrefix, bindGetE, h1, h2, h3, h4, h5, h6, h7, h8, h9, hp,
      Bool.not_false, if_true]
  have hs : strictExtract item =
      .error (.valueError (portionsMsg portions_div.textContent)) := by
    simp only [strictExtract, hpre]
  obtain ⟨o, ho, he, hm⟩ :=
    processItem_fallback_of_caught i total item _ hs rfl
  exact ⟨hs, o, ho, he, hm⟩

/-- Witness for C10 at the concrete no-portion item. -/
theorem c10_witness :
    strictExtract cItemNoPortion =
      .error (.valueError (portionsMsg (mkPortions "servings").textContent))
    ∧ ∃ o, processItem 0 1 cItemNoPortion = .ok o
        ∧ portionsMsg (mkPortions "servings").textContent ∈ o.diags
        ∧ fallbackMsg 0 1 ∈ o.diags :=
  c10_missing_portion_falls_back cItemNoPortion
    (mkWrapper "8FVC2222+22" "servings") (mkNameOlc "8FVC2222+22")
    (.elem "p" [] [.text "Fred Bloggs"]) (.elem "p" [] [.text "8FVC2222+22"])
    addrP (mkPortions "servings")
    [("div1", mkWrapper "8FVC2222+22" "servings")]
    [("name_olc_div", mkNameOlc "8FVC2222+22"), ("addr_p", addrP),
     ("portions_div", mkPortions "servings"), ("insns_p", insnsP),
     ("allergies_p", allergP), ("links_div", mkLinks "8FVC2222+22")]
    [("fullname_p", .elem "p" [] [.text "Fred Bloggs"]),
     ("olc_p", .elem "p" [] [.text "8FVC2222+22"])]
    0 1
    (by decide) (by decide) (by decide) (by decide) (by decide)
    (by decide) (by decide) (by decide) (by decide) (by decide)
